import Mathlib

/-!
Shallow embedding of `src/cmd/cloudflared/tail/cmd.go` (package `tail`), the
remote log-tailing client of the cloudflared repository.

Modelling conventions:
- zerolog log statements are represented by the inductive type `Tail.LogMsg`,
  one constructor per distinct log call site in the source, carrying the
  format arguments of that call; `LogMsg.severity` gives the zerolog level of
  the call site and `LogMsg.render` the format string instantiated with its
  arguments.
- `json.NewDecoder(resp.Body).Decode(&managementErr)` is modelled by an input
  of type `Option managementErrorResponse`: `none` when decoding the body
  fails, `some m` when it succeeds with value `m`.
- `json.Marshal(l.Fields)` on a log record field map is modelled by the field
  `Log.fieldsJSON : Option String`: `some s` when marshalling succeeds
  producing `s`, `none` when it fails.
- goroutine interaction (channels, `select`) is modelled by making the event
  that fires first an explicit input of the step functions; the reader
  goroutine body and the coordinator wait loop of `Run` are embedded as the
  functions `readerStep` and `coordinate`, and the sequential control flow of
  `Run` as the function `Run` over a `RunInput` that records the outcome of
  each external call.
-/

namespace Tail

/-- The four log levels of the management filter enum. -/
inductive LogLevel where
  | debug
  | info
  | warn
  | error
deriving DecidableEq, Repr

/-- The four event types of the management filter enum. -/
inductive LogEventType where
  | cloudflared
  | http
  | tcp
  | udp
deriving DecidableEq, Repr

/-- Modelled from the spec: `management.ParseLogLevel` lives in the
management package, which is not under src/; the spec states that level
parsing is case/spelling-exact over debug, info, warn, error. -/
def ParseLogLevel (s : String) : Option LogLevel :=
  if s = "debug" then some .debug
  else if s = "info" then some .info
  else if s = "warn" then some .warn
  else if s = "error" then some .error
  else none

/-- Modelled from the spec: `management.ParseLogEventType` lives in the
management package, which is not under src/; the spec states that event
parsing accepts exactly cloudflared, http, tcp, udp. -/
def ParseLogEventType (s : String) : Option LogEventType :=
  if s = "cloudflared" then some .cloudflared
  else if s = "http" then some .http
  else if s = "tcp" then some .tcp
  else if s = "udp" then some .udp
  else none

/-- The `management.StreamingFilters` struct: optional level and event list. -/
structure StreamingFilters where
  level : Option LogLevel
  events : List LogEventType
deriving DecidableEq, Repr

/-- Error text of the level branch of `parseFilters` (cmd.go line 138). -/
def invalidLevelText : String :=
  "invalid --level filter provided, please use one of the following Log Levels: debug, info, warn, error"

/-- Error text of the event branch of `parseFilters` (cmd.go line 146). -/
def invalidEventText : String :=
  "invalid --event filter provided, please use one of the following EventTypes: cloudflared, http, tcp, udp"

/-- The event loop of `parseFilters` (cmd.go lines 143-149): parse each event
string in order, failing the whole parse at the first unrecognized token. -/
def parseEventList : List String → Except String (List LogEventType)
  | [] => .ok []
  | v :: rest =>
    match ParseLogEventType v with
    | none => .error invalidEventText
    | some t =>
      match parseEventList rest with
      | .error e => .error e
      | .ok ts => .ok (t :: ts)

/-- `parseFilters` (cmd.go lines 128-160). The Go function receives the cli
context; its two reads `c.String("level")` and `c.StringSlice("event")` are
the two arguments here. Returns `.ok none` (the nil pointer, no filter) when
no level and no events were supplied. -/
def parseFilters (argLevel : String) (argEvents : List String) :
    Except String (Option StreamingFilters) :=
  match (if argLevel = "" then .ok none
         else match ParseLogLevel argLevel with
           | none => .error invalidLevelText
           | some l => .ok (some l) : Except String (Option LogLevel)) with
  | .error e => .error e
  | .ok level =>
    match parseEventList argEvents with
    | .error e => .error e
    | .ok events =>
      if level = none ∧ events = [] then
        .ok none
      else
        .ok (some ⟨level, events⟩)

/-- The `managementError` struct (cmd.go lines 83-86). -/
structure managementError where
  code : Int
  message : String
deriving DecidableEq, Repr

/-- The `managementErrorResponse` struct (cmd.go lines 89-92). -/
structure managementErrorResponse where
  success : Bool
  errors : List managementError
deriving DecidableEq, Repr

/-- Severity of a zerolog call site. -/
inductive Severity where
  | debug
  | error
deriving DecidableEq, Repr

/-- A record of one field of a server log record; the field map itself is
opaque, only its marshalling outcome matters to the code. -/
structure Log where
  time : String
  level : String
  event : String
  message : String
  /-- Outcome of `json.Marshal(l.Fields)`: `some s` when the field map
  marshals to `s`, `none` when marshalling fails. -/
  fieldsJSON : Option String
deriving DecidableEq, Repr

/-- One constructor per distinct log call site in cmd.go, carrying the format
arguments of the call. -/
inductive LogMsg where
  /-- cmd.go line 96: the 530 no-reachable-connector message. -/
  | noConnector
  /-- cmd.go line 101: generic failure citing the raw HTTP status code. -/
  | genericFailure (status : Int)
  /-- cmd.go line 105: decoded body had success set or an empty error list. -/
  | validationSuccessInvalid
  /-- cmd.go line 109: one message per decoded (code, message) pair. -/
  | validationFailed (code : Int) (message : String)
  /-- cmd.go line 172: filter parsing failed; carries the parse error. -/
  | invalidFilters (err : String)
  /-- cmd.go line 195: dial failed without a usable HTTP response. -/
  | streamingSessionFailed (err : String)
  /-- cmd.go line 206: sending the start_streaming event failed. -/
  | requestLogsFailed (err : String)
  /-- cmd.go line 228: abnormal remote closure with code and reason. -/
  | remoteClosure (code : Int) (reason : String)
  /-- cmd.go line 231: a read error that is not a closure. -/
  | readEventFailed (err : String)
  /-- cmd.go line 238: a logs-typed event failed conversion. -/
  | invalidLogsEvent
  /-- cmd.go line 246: a record field map failed to marshal; carries the
  record printed by the %+v verb. -/
  | unableToParseFields (record : Log)
  /-- cmd.go line 253: recognized-but-unhandled or unknown event type. -/
  | unexpectedEventType (tag : String)
  /-- cmd.go line 266: debug note before the graceful close. -/
  | closingConnection
deriving DecidableEq, Repr

/-- Severity of each call site: `log.Debug()` versus `log.Error()` or
`log.Err(err)` with a non-nil error. -/
def LogMsg.severity : LogMsg → Severity
  | .unableToParseFields _ => .debug
  | .unexpectedEventType _ => .debug
  | .closingConnection => .debug
  | _ => .error

/-- The message text of each call site, format verbs instantiated. For
`unableToParseFields` the %+v rendering of the record is abbreviated to its
message field; the record itself is carried by the constructor. -/
def LogMsg.render : LogMsg → String
  | .noConnector =>
      "no cloudflared connector available or reachable via management request (a recent version of cloudflared is required to use streaming logs)"
  | .genericFailure status =>
      "unable to start management log streaming session: http response code returned " ++ toString status
  | .validationSuccessInvalid =>
      "management tunnel validation returned success with invalid HTTP response code to convert to a WebSocket request"
  | .validationFailed code message =>
      "management request failed validation: (" ++ toString code ++ ") " ++ message
  | .invalidFilters _ => "invalid filters provided"
  | .streamingSessionFailed _ => "unable to start management log streaming session"
  | .requestLogsFailed _ => "unable to request logs from management tunnel"
  | .remoteClosure code reason =>
      "received remote closure: (" ++ toString code ++ ") " ++ reason
  | .readEventFailed _ => "unable to read event from server"
  | .invalidLogsEvent => "invalid logs event"
  | .unableToParseFields record =>
      "unable to parse fields from event " ++ record.message
  | .unexpectedEventType tag => "unexpected log event type: " ++ tag
  | .closingConnection => "closing management connection"

/-- The body-handling part of `handleValidationError` (cmd.go lines 98-110):
decode the response body, log the generic failure on decode error, the
invalid-success message when success is set or the error list is empty, and
otherwise one message per (code, message) pair. -/
def bodyValidationMessages (statusCode : Int)
    (decoded : Option managementErrorResponse) : List LogMsg :=
  match decoded with
  | none => [.genericFailure statusCode]
  | some m =>
    if m.success ∨ m.errors.length = 0 then
      [.validationSuccessInvalid]
    else
      m.errors.map fun e => .validationFailed e.code e.message

/-- `handleValidationError` (cmd.go lines 94-111) as the list of messages it
logs, in order: the 530 banner has no early return, so the body handling
always follows it. -/
def handleValidationError (statusCode : Int)
    (decoded : Option managementErrorResponse) : List LogMsg :=
  (if statusCode = 530 then [.noConnector] else []) ++
    bodyValidationMessages statusCode decoded

/-- websocket.StatusNormalClosure. -/
def statusNormalClosure : Int := 1000

/-- websocket.StatusInternalError, used by the deferred close (cmd.go 198). -/
def statusInternalError : Int := 1011

/-- The fixed grace period (in seconds) of `time.After(time.Second)` in the
signal branch of the coordinator wait loop (cmd.go line 272). -/
def gracefulCloseWaitSeconds : Nat := 1

/-- A close frame written to the websocket by `conn.Close(code, reason)`. -/
structure CloseFrame where
  code : Int
  reason : String
deriving DecidableEq, Repr

/-- Outcome of `management.ReadServerEvent` when it returns a non-nil error,
classified the way cmd.go lines 221-232 classify it: `closed code reason`
when `management.AsClosed(err)` yields a non-nil CloseError, `other` when it
yields nil. -/
inductive ReadErr where
  | closed (code : Int) (reason : String)
  | other (errText : String)
deriving DecidableEq, Repr

/-- The `event.Type` tag switched on at cmd.go line 234. `management.Logs`
and `management.UnknownServerEventType` are named constants of the management
package; any other tag falls to the default arm with `unknown`. -/
inductive ServerEventType where
  | logs
  | unknownServerEventType
  | other (tag : String)
deriving DecidableEq, Repr

/-- The %s rendering of the tag in the debug message at cmd.go line 253; the
unknown constant renders as the empty string. -/
def ServerEventType.render : ServerEventType → String
  | .logs => "logs"
  | .unknownServerEventType => ""
  | .other tag => tag

/-- A decoded server event: its type tag, and (for logs-typed events) the
result of `management.IntoServerEvent(event, management.Logs)`: `some` with
the record list when the conversion succeeds, `none` when it fails. -/
structure ServerEvent where
  type : ServerEventType
  intoLogs : Option (List Log)
deriving DecidableEq, Repr

/-- What one iteration of the reader goroutine loop does to the loop. A
`terminate` result is a `return` of the goroutine closure: its deferred
`close(readerDone)` then signals completion to the coordinator. -/
inductive LoopControl where
  | next
  | terminate
deriving DecidableEq, Repr

/-- Output of one reader loop iteration: the loop control, the diagnostics
logged, and the lines printed to stdout (one list entry per Printf call at
cmd.go line 248, trailing newline omitted). -/
structure StepOut where
  control : LoopControl
  logs : List LogMsg
  stdout : List String
deriving DecidableEq, Repr

/-- The per-record body of the loop at cmd.go lines 242-249: marshal the
field map, fall back to the literal placeholder bytes and a debug diagnostic
on failure, then print the five fields space-separated. -/
def renderLog (l : Log) : String × List LogMsg :=
  match l.fieldsJSON with
  | some fields =>
      (l.time ++ " " ++ l.level ++ " " ++ l.event ++ " " ++ l.message ++ " " ++ fields, [])
  | none =>
      (l.time ++ " " ++ l.level ++ " " ++ l.event ++ " " ++ l.message ++ " " ++ "unable to parse fields",
       [.unableToParseFields l])

/-- The `for _, l := range logs.Logs` loop: stdout lines and diagnostics of
all records, in order. -/
def handleLogs : List Log → List String × List LogMsg
  | [] => ([], [])
  | l :: rest =>
    ((renderLog l).1 :: (handleLogs rest).1, (renderLog l).2 ++ (handleLogs rest).2)

/-- One iteration of the reader goroutine (cmd.go lines 214-255): the
non-blocking cancellation check, then one `ReadServerEvent` whose outcome is
the `read` argument, then the error classification or the event type switch. -/
def readerStep (ctxDone : Bool) (read : Except ReadErr ServerEvent) : StepOut :=
  if ctxDone then ⟨.terminate, [], []⟩
  else
    match read with
    | .error e =>
      match e with
      | .closed code reason =>
        if code = statusNormalClosure then ⟨.terminate, [], []⟩
        else ⟨.terminate, [.remoteClosure code reason], []⟩
      | .other errText => ⟨.terminate, [.readEventFailed errText], []⟩
    | .ok event =>
      match event.type with
      | .logs =>
        match event.intoLogs with
        | none => ⟨.next, [.invalidLogsEvent], []⟩
        | some logs => ⟨.next, (handleLogs logs).2, (handleLogs logs).1⟩
      | t => ⟨.next, [.unexpectedEventType t.render], []⟩

/-- The first channel to fire in the coordinator select (cmd.go lines
260-275). In the `signal` case, `readerFinishedInGrace` records which arm of
the inner select fires first: reader completion, or the 1-second timer. -/
inductive CoordEvent where
  | ctxDone
  | readerDone
  | signal (readerFinishedInGrace : Bool)
deriving DecidableEq, Repr

/-- Output of the coordinator wait loop: diagnostics, close frames written by
the loop itself, and the value `Run` returns from it. -/
structure CoordOut where
  logs : List LogMsg
  closes : List CloseFrame
  retval : Option String
deriving DecidableEq, Repr

/-- The coordinator wait loop (cmd.go lines 259-276). Every branch returns on
its first firing, so the loop runs exactly one iteration; in the signal
branch the inner select outcome is ignored and the branch returns nil either
way. -/
def coordinate : CoordEvent → CoordOut
  | .ctxDone => ⟨[], [], none⟩
  | .readerDone => ⟨[], [], none⟩
  | .signal _ => ⟨[.closingConnection], [⟨statusNormalClosure, ""⟩], none⟩

/-- Outcome of `websocket.Dial` (cmd.go line 187): success, or a non-nil
error with or without a usable HTTP response. `decoded` models the JSON
decode of the response body as in `handleValidationError`. -/
inductive DialOutcome where
  | success
  | failureWithResponse (errText : String) (status : Int)
      (decoded : Option managementErrorResponse)
  | failureNoResponse (errText : String)
deriving DecidableEq, Repr

/-- Outcome of `management.WriteEvent` for the start_streaming event. -/
inductive WriteOutcome where
  | ok
  | failure (errText : String)
deriving DecidableEq, Repr

/-- The inputs that decide the control flow of one `Run` execution: the two
cli filter reads and the outcome of each external call in order. -/
structure RunInput where
  argLevel : String
  argEvents : List String
  dial : DialOutcome
  write : WriteOutcome
  coordEvent : CoordEvent
deriving DecidableEq, Repr

/-- Observable outcome of `Run`: diagnostics in order, close frames written
by the main goroutine (including the deferred close attempt at cmd.go line
198, which fires on every return path after a successful dial), the number
of dial attempts made, and the returned error value. -/
structure RunOut where
  logs : List LogMsg
  closes : List CloseFrame
  dialAttempts : Nat
  retval : Option String
deriving DecidableEq, Repr

/-- The deferred `conn.Close(websocket.StatusInternalError, ...)` frame. -/
def deferredCloseFrame : CloseFrame :=
  ⟨statusInternalError, "management connection was closed abruptly"⟩

/-- The main goroutine of `Run` (cmd.go lines 163-277): filter parsing, dial
with failure classification, start_streaming send, then the coordinator wait
loop. The reader goroutine runs concurrently and is modelled separately by
`readerStep`. -/
def Run (i : RunInput) : RunOut :=
  match parseFilters i.argLevel i.argEvents with
  | .error e => ⟨[.invalidFilters e], [], 0, none⟩
  | .ok _ =>
    match i.dial with
    | .failureWithResponse errText status decoded =>
      if status ≠ 101 then
        ⟨handleValidationError status decoded, [], 1, none⟩
      else
        ⟨[.streamingSessionFailed errText], [], 1, none⟩
    | .failureNoResponse errText =>
      ⟨[.streamingSessionFailed errText], [], 1, none⟩
    | .success =>
      match i.write with
      | .failure errText =>
        ⟨[.requestLogsFailed errText], [deferredCloseFrame], 1, none⟩
      | .ok =>
        ⟨(coordinate i.coordEvent).logs,
         (coordinate i.coordEvent).closes ++ [deferredCloseFrame], 1,
         (coordinate i.coordEvent).retval⟩

/-- Modelled from the spec: the JSON field names present in the serialized
start_streaming client event. The `EventStartStreaming` struct and its
omitempty filters tag live in the management package, which is not under
src/; the spec states the filter field is omitted entirely when no filter is
present. Returns the list of serialized field names. -/
def serializeStartStreaming (filters : Option StreamingFilters) : List String :=
  ["type"] ++ (match filters with | none => [] | some _ => ["filters"])

/-- The level strings accepted by the level filter. -/
def validLevelStrings : List String := ["debug", "info", "warn", "error"]

/-- The event strings accepted by the event filter. -/
def validEventStrings : List String := ["cloudflared", "http", "tcp", "udp"]

theorem ParseLogLevel_eq_none_of_not_mem {s : String} (h : s ∉ validLevelStrings) :
    ParseLogLevel s = none := by
  simp [validLevelStrings] at h
  simp [ParseLogLevel, h.1, h.2.1, h.2.2.1, h.2.2.2]

theorem ParseLogEventType_eq_none_of_not_mem {s : String} (h : s ∉ validEventStrings) :
    ParseLogEventType s = none := by
  simp [validEventStrings] at h
  simp [ParseLogEventType, h.1, h.2.1, h.2.2.1, h.2.2.2]

theorem mem_of_ParseLogEventType_eq_some {s : String} {t : LogEventType}
    (h : ParseLogEventType s = some t) : s ∈ validEventStrings := by
  by_contra hc
  rw [ParseLogEventType_eq_none_of_not_mem hc] at h
  exact Option.noConfusion h

theorem bodyValidationMessages_no_banner (s : Int) (d : Option managementErrorResponse) :
    LogMsg.noConnector ∉ bodyValidationMessages s d ∧ bodyValidationMessages s d ≠ [] := by
  cases d with
  | none => simp [bodyValidationMessages]
  | some m =>
    by_cases h : m.success = true ∨ m.errors.length = 0
    · simp only [bodyValidationMessages, if_pos h]
      simp
    · simp only [bodyValidationMessages, if_neg h]
      push_neg at h
      refine ⟨?_, ?_⟩
      · simp [List.mem_map]
      · simp only [ne_eq, List.map_eq_nil_iff]
        exact fun he => h.2 (by simp [he])

theorem handleLogs_length (ls : List Log) : (handleLogs ls).1.length = ls.length := by
  induction ls with
  | nil => rfl
  | cons l rest ih => simp [handleLogs, ih]

theorem handleLogs_append (a b : List Log) :
    handleLogs (a ++ b) =
      ((handleLogs a).1 ++ (handleLogs b).1, (handleLogs a).2 ++ (handleLogs b).2) := by
  induction a with
  | nil => simp [handleLogs]
  | cons l rest ih => simp [handleLogs, ih]

/-- C1 counterexample: a 530 response whose body does not decode as a
Validation Error Response (as the HTML error page served with status 530
does not) produces two error messages, not one: the specific
no-reachable-connector banner is followed by the generic failure message,
because `handleValidationError` has no early return after the banner. -/
theorem handle530_emits_additional_message :
    handleValidationError 530 none = [.noConnector, .genericFailure 530] ∧
    (handleValidationError 530 none).length ≠ 1 := by
  decide

/-- C1 amended: on a 530 response the no-reachable-connector banner is
logged first and exactly once and no retry is performed (a single dial
attempt), but the handler does not abort after the banner: the body is still
decoded and at least one additional message is always emitted. -/
theorem handle530_banner_then_body (decoded : Option managementErrorResponse) :
    handleValidationError 530 decoded = .noConnector :: bodyValidationMessages 530 decoded ∧
    (handleValidationError 530 decoded).count .noConnector = 1 ∧
    2 ≤ (handleValidationError 530 decoded).length ∧
    (Run ⟨"", [], .failureWithResponse "bad handshake" 530 decoded, .ok, .ctxDone⟩).dialAttempts
      = 1 := by
  obtain ⟨hmem, hne⟩ := bodyValidationMessages_no_banner 530 decoded
  refine ⟨rfl, ?_, ?_, rfl⟩
  · simp [handleValidationError, List.count_cons, List.count_eq_zero.mpr hmem]
  · have : 1 ≤ (bodyValidationMessages 530 decoded).length :=
      Nat.one_le_iff_ne_zero.mpr (fun h0 => hne (List.length_eq_zero.mp h0))
    simp [handleValidationError]
    omega

/-- C1 amended witness: the banner count evaluated on an undecodable body. -/
theorem handle530_banner_then_body_witness :
    (handleValidationError 530 none).count .noConnector = 1 ∧
    2 ≤ (handleValidationError 530 none).length :=
  ⟨(handle530_banner_then_body none).2.1, (handle530_banner_then_body none).2.2.1⟩

/-- C4: every decode error in the reader loop first goes through the closure
test: a normal-closure closure terminates the reader silently, any other
closure logs its code and reason and terminates, and a non-closure error
logs the raw error and terminates; nothing is printed and the reader task
ends (its deferred completion signal fires) in all three cases. -/
theorem readerStep_decode_error_classification (e : ReadErr) :
    (readerStep false (.error e)).control = .terminate ∧
    (readerStep false (.error e)).stdout = [] ∧
    (∀ reason, e = .closed statusNormalClosure reason →
      (readerStep false (.error e)).logs = []) ∧
    (∀ code reason, e = .closed code reason → code ≠ statusNormalClosure →
      (readerStep false (.error e)).logs = [.remoteClosure code reason]) ∧
    (∀ errText, e = .other errText →
      (readerStep false (.error e)).logs = [.readEventFailed errText]) := by
  cases e with
  | closed code reason =>
    by_cases h : code = statusNormalClosure
    · subst h
      refine ⟨rfl, rfl, fun r hr => by simp [readerStep], ?_, ?_⟩
      · intro c r hcr hne
        cases hcr
        exact absurd rfl hne
      · intro t ht
        exact ReadErr.noConfusion ht
    · refine ⟨?_, ?_, ?_, ?_, ?_⟩
      · simp [readerStep, h]
      · simp [readerStep, h]
      · intro r hr
        cases hr
        exact absurd rfl h
      · intro c r hcr hne
        cases hcr
        simp [readerStep, h]
      · intro t ht
        exact ReadErr.noConfusion ht
  | other t =>
    refine ⟨rfl, rfl, ?_, ?_, fun u hu => by cases hu; rfl⟩
    · intro r hr
      exact ReadErr.noConfusion hr
    · intro c r hcr
      exact ReadErr.noConfusion hcr

/-- C4 witness: the classification evaluated on a concrete abnormal closure
with code 1005 and reason server restarting. -/
theorem readerStep_decode_error_classification_witness :
    (readerStep false (.error (.closed 1005 "server restarting"))).logs
      = [.remoteClosure 1005 "server restarting"] :=
  (readerStep_decode_error_classification (.closed 1005 "server restarting")).2.2.2.1
    1005 "server restarting" rfl (by decide)

/-- C5: the main control flow of Run returns nil on every execution path:
filter validation failure, dial failure with or without a response,
subscribe-send failure, and each arm of the coordinator wait loop. -/
theorem Run_returns_nil (i : RunInput) : (Run i).retval = none := by
  obtain ⟨al, ae, d, w, ce⟩ := i
  simp only [Run]
  cases parseFilters al ae with
  | error e => rfl
  | ok f =>
    cases d with
    | failureWithResponse t s dec =>
      dsimp only
      split
      · rfl
      · rfl
    | failureNoResponse t => rfl
    | success =>
      cases w with
      | failure t => rfl
      | ok => cases ce <;> rfl

/-- C5 witness: the nil return evaluated on a concrete run ended by reader
completion. -/
theorem Run_returns_nil_witness :
    (Run ⟨"", [], .success, .ok, .readerDone⟩).retval = none :=
  Run_returns_nil ⟨"", [], .success, .ok, .readerDone⟩

/-- C6: with no level string and no event strings, parseFilters returns the
nil filter pointer (not an empty filter object) with no error, and the
serialized start_streaming event then carries no filters field at all. -/
theorem parseFilters_empty_no_filter :
    parseFilters "" [] = .ok none ∧
    serializeStartStreaming none = ["type"] ∧
    "filters" ∉ serializeStartStreaming none := by
  refine ⟨rfl, rfl, ?_⟩
  decide

/-- C10: a logs-typed server event whose conversion fails makes the reader
log the invalid-logs-event diagnostic at error severity and continue with
the next iteration, printing nothing; a decode error, by contrast, always
terminates the reader. -/
theorem readerStep_invalid_logs_event_continues :
    readerStep false (.ok ⟨.logs, none⟩) = ⟨.next, [.invalidLogsEvent], []⟩ ∧
    LogMsg.invalidLogsEvent.severity = .error ∧
    ∀ e : ReadErr, (readerStep false (.error e)).control = .terminate := by
  refine ⟨rfl, rfl, ?_⟩
  intro e
  cases e with
  | closed code reason =>
    by_cases h : code = statusNormalClosure <;> simp [readerStep, h]
  | other t => rfl

theorem parseFilters_nil : parseFilters "" [] = .ok none := rfl

/-- C2 counterexample: at status 400 with a body that decodes to a response
whose success flag is set (and error list empty), the single message logged
is the fixed invalid-success message, which is a different call site from
the generic failure message and whose text does not cite the status code. -/
theorem validation_success_message_lacks_status :
    handleValidationError 400 (some ⟨true, []⟩) = [.validationSuccessInvalid] ∧
    LogMsg.validationSuccessInvalid ≠ LogMsg.genericFailure 400 ∧
    LogMsg.validationSuccessInvalid.render ≠ (LogMsg.genericFailure 400).render := by
  refine ⟨by decide, by decide, by decide⟩

/-- C2 amended: for a failed connection attempt whose response status is not
101 the body is decoded; on decode failure a single generic message citing
the raw status code is logged; on a decoded body with a false success flag
and non-empty error list, one message per (code, message) pair; on a decoded
body with the success flag set or an empty error list, a single fixed
invalid-success message that does not carry the status code. (Status 530
additionally prepends the no-reachable-connector banner, hence the
hypothesis excluding it here.) -/
theorem handleValidationError_body_classification (status : Int) (h530 : status ≠ 530) :
    (handleValidationError status none = [.genericFailure status]) ∧
    (∀ m : managementErrorResponse, m.success = false → m.errors ≠ [] →
      handleValidationError status (some m) =
        m.errors.map fun e => .validationFailed e.code e.message) ∧
    (∀ m : managementErrorResponse, m.success = true ∨ m.errors = [] →
      handleValidationError status (some m) = [.validationSuccessInvalid]) ∧
    (∀ errText decoded ce, status ≠ 101 →
      (Run ⟨"", [], .failureWithResponse errText status decoded, .ok, ce⟩).logs =
        handleValidationError status decoded) := by
  refine ⟨?_, ?_, ?_, ?_⟩
  · simp [handleValidationError, bodyValidationMessages, h530]
  · intro m hs he
    have hguard : ¬(m.success = true ∨ m.errors.length = 0) := by
      push_neg
      exact ⟨by simp [hs], fun h0 => he (List.length_eq_zero.mp h0)⟩
    simp only [handleValidationError, bodyValidationMessages, if_neg h530, if_neg hguard,
      List.nil_append]
  · intro m hm
    have hguard : m.success = true ∨ m.errors.length = 0 := by
      rcases hm with h | h
      · exact Or.inl h
      · exact Or.inr (by simp [h])
    simp only [handleValidationError, bodyValidationMessages, if_neg h530, if_pos hguard,
      List.nil_append]
  · intro errText decoded ce h101
    simp only [Run, parseFilters_nil, if_pos h101]

/-- C2 witness: the classification evaluated at status 400 with an
undecodable body, both at the handler and through the Run dispatch. -/
theorem handleValidationError_body_classification_witness :
    handleValidationError 400 none = [.genericFailure 400] ∧
    (Run ⟨"", [], .failureWithResponse "bad handshake" 400 none, .ok, .ctxDone⟩).logs =
      handleValidationError 400 none :=
  ⟨(handleValidationError_body_classification 400 (by decide)).1,
   (handleValidationError_body_classification 400 (by decide)).2.2.2
     "bad handshake" none .ctxDone (by decide)⟩

/-- C3: when the OS signal fires first in the coordinator wait loop, the
frames written are exactly one close frame with the normal-closure code and
an empty reason followed by the deferred close attempt (whose code is not
the normal-closure code), the 1-second grace period is fixed, and Run
returns nil whether or not the reader completed within the grace period. -/
theorem signal_graceful_close (i : RunInput) (b : Bool) (f : Option StreamingFilters)
    (hf : parseFilters i.argLevel i.argEvents = .ok f)
    (hd : i.dial = .success) (hw : i.write = .ok)
    (he : i.coordEvent = .signal b) :
    (Run i).closes = [⟨statusNormalClosure, ""⟩, deferredCloseFrame] ∧
    deferredCloseFrame.code ≠ statusNormalClosure ∧
    (Run i).retval = none ∧
    gracefulCloseWaitSeconds = 1 := by
  obtain ⟨al, ae, d, w, ce⟩ := i
  dsimp only at hf hd hw he
  subst hd hw he
  simp only [Run, hf]
  exact ⟨rfl, by decide, rfl, rfl⟩

/-- C3 witness: the signal branch evaluated on a concrete run in which the
reader does not complete within the grace period. -/
theorem signal_graceful_close_witness :
    (Run ⟨"", [], .success, .ok, .signal false⟩).closes
      = [⟨statusNormalClosure, ""⟩, deferredCloseFrame] ∧
    (Run ⟨"", [], .success, .ok, .signal false⟩).retval = none :=
  ⟨(signal_graceful_close ⟨"", [], .success, .ok, .signal false⟩ false none
      parseFilters_nil rfl rfl rfl).1,
   (signal_graceful_close ⟨"", [], .success, .ok, .signal false⟩ false none
      parseFilters_nil rfl rfl rfl).2.2.1⟩

theorem parseEventList_ok_of_all_valid (evs : List String)
    (h : ∀ v ∈ evs, v ∈ validEventStrings) : ∃ ts, parseEventList evs = .ok ts := by
  induction evs with
  | nil => exact ⟨[], rfl⟩
  | cons v rest ih =>
    have hv : v ∈ validEventStrings := h v (List.mem_cons_self v rest)
    have hsome : ∃ t, ParseLogEventType v = some t := by
      simp only [validEventStrings, List.mem_cons, List.not_mem_nil, or_false] at hv
      rcases hv with h1 | h1 | h1 | h1 <;> subst h1 <;> exact ⟨_, rfl⟩
    obtain ⟨t, ht⟩ := hsome
    obtain ⟨ts, hts⟩ := ih fun u hu => h u (List.mem_cons_of_mem v hu)
    exact ⟨t :: ts, by simp [parseEventList, ht, hts]⟩

theorem parseEventList_error_of_bad (evs : List String)
    (h : ∃ v ∈ evs, v ∉ validEventStrings) :
    parseEventList evs = .error invalidEventText := by
  induction evs with
  | nil =>
    obtain ⟨v, hv, _⟩ := h
    exact absurd hv (List.not_mem_nil v)
  | cons v rest ih =>
    obtain ⟨b, hb, hbad⟩ := h
    cases hpv : ParseLogEventType v with
    | none => simp [parseEventList, hpv]
    | some t =>
      have hv : v ∈ validEventStrings := mem_of_ParseLogEventType_eq_some hpv
      have hbrest : b ∈ rest := by
        rcases List.mem_cons.mp hb with h1 | h1
        · exact absurd hv (h1 ▸ hbad)
        · exact h1
      have hrest := ih ⟨b, hbrest, hbad⟩
      simp [parseEventList, hpv, hrest]

/-- C7: the four level strings parse; any other non-empty level string makes
parseFilters fail with the error text enumerating the four levels; every
event list drawn from the four event strings parses; and any list holding an
unrecognized token makes parseFilters fail with the error text enumerating
the four event types, whatever valid or absent level accompanies it. -/
theorem filter_parse_enumerations :
    (∀ s ∈ validLevelStrings, (ParseLogLevel s).isSome = true) ∧
    (∀ s, s ≠ "" → s ∉ validLevelStrings →
      ∀ evs, parseFilters s evs = .error invalidLevelText) ∧
    (∀ evs, (∀ v ∈ evs, v ∈ validEventStrings) → ∃ ts, parseEventList evs = .ok ts) ∧
    (∀ evs, (∃ v ∈ evs, v ∉ validEventStrings) → ∀ s, s = "" ∨ s ∈ validLevelStrings →
      parseFilters s evs = .error invalidEventText) := by
  refine ⟨?_, ?_, parseEventList_ok_of_all_valid, ?_⟩
  · intro s hs
    simp only [validLevelStrings, List.mem_cons, List.not_mem_nil, or_false] at hs
    rcases hs with h | h | h | h <;> subst h <;> rfl
  · intro s hne hmem evs
    simp [parseFilters, hne, ParseLogLevel_eq_none_of_not_mem hmem]
  · intro evs hbad s hs
    have hev := parseEventList_error_of_bad evs hbad
    rcases hs with h | h
    · subst h
      simp [parseFilters, hev]
    · simp only [validLevelStrings, List.mem_cons, List.not_mem_nil, or_false] at h
      rcases h with h | h | h | h <;> subst h <;> simp [parseFilters, ParseLogLevel, hev]

/-- C7 witness: a rejected level string and a rejected event token, each with
the enumerated-values error text. -/
theorem filter_parse_enumerations_witness :
    parseFilters "verbose" ["grpc"] = .error invalidLevelText ∧
    parseFilters "debug" ["grpc"] = .error invalidEventText :=
  ⟨filter_parse_enumerations.2.1 "verbose" (by decide) (by decide) ["grpc"],
   filter_parse_enumerations.2.2.2 ["grpc"] ⟨"grpc", by decide, by decide⟩ "debug"
     (Or.inr (by decide))⟩

theorem handleLogs_fst_of_all_some (ls : List Log) (fs : List String)
    (h : ls.map Log.fieldsJSON = fs.map some) :
    (handleLogs ls).1 = (ls.zip fs).map (fun p =>
      p.1.time ++ " " ++ p.1.level ++ " " ++ p.1.event ++ " " ++ p.1.message ++ " " ++ p.2) := by
  induction ls generalizing fs with
  | nil => simp [handleLogs]
  | cons l rest ih =>
    cases fs with
    | nil => simp at h
    | cons f fs2 =>
      simp only [List.map_cons, List.cons.injEq] at h
      obtain ⟨h1, h2⟩ := h
      simp [handleLogs, renderLog, h1, ih fs2 h2]

/-- C8: a successfully converted logs event whose n records all marshal
produces exactly n stdout lines, in record order, each line being the five
record fields time, level, event, message, marshalled fields, in that order
and space-separated; the reader then continues. -/
theorem logs_event_line_per_record (ls : List Log) (fs : List String)
    (h : ls.map Log.fieldsJSON = fs.map some) :
    (readerStep false (.ok ⟨.logs, some ls⟩)).stdout =
      (ls.zip fs).map (fun p =>
        p.1.time ++ " " ++ p.1.level ++ " " ++ p.1.event ++ " " ++ p.1.message ++ " " ++ p.2) ∧
    (readerStep false (.ok ⟨.logs, some ls⟩)).stdout.length = ls.length ∧
    (readerStep false (.ok ⟨.logs, some ls⟩)).control = .next := by
  exact ⟨handleLogs_fst_of_all_some ls fs h, handleLogs_length ls, rfl⟩

/-- C8 witness: a logs event with two marshalling records yields exactly the
two formatted lines in order. -/
theorem logs_event_line_per_record_witness :
    (readerStep false (.ok ⟨.logs, some
        [⟨"t1", "info", "http", "m1", some "f1"⟩,
         ⟨"t2", "warn", "tcp", "m2", some "f2"⟩]⟩)).stdout
      = ["t1 info http m1 f1", "t2 warn tcp m2 f2"] := by
  rw [(logs_event_line_per_record
        [⟨"t1", "info", "http", "m1", some "f1"⟩,
         ⟨"t2", "warn", "tcp", "m2", some "f2"⟩]
        ["f1", "f2"] rfl).1]
  decide

/-- C9: a record whose field map fails to marshal still gets its stdout line,
with the literal placeholder in the fields position; a diagnostic carrying
the record is logged at debug severity; all surrounding records still
produce their lines and the reader continues. -/
theorem marshal_failure_recovered (pre post : List Log) (l : Log)
    (h : l.fieldsJSON = none) :
    ((readerStep false (.ok ⟨.logs, some (pre ++ l :: post)⟩)).stdout.length
        = pre.length + 1 + post.length) ∧
    ((readerStep false (.ok ⟨.logs, some (pre ++ l :: post)⟩)).stdout[pre.length]? =
        some (l.time ++ " " ++ l.level ++ " " ++ l.event ++ " " ++ l.message ++ " "
          ++ "unable to parse fields")) ∧
    (LogMsg.unableToParseFields l
      ∈ (readerStep false (.ok ⟨.logs, some (pre ++ l :: post)⟩)).logs) ∧
    ((LogMsg.unableToParseFields l).severity = .debug) ∧
    ((readerStep false (.ok ⟨.logs, some (pre ++ l :: post)⟩)).control = .next) := by
  have hstep : readerStep false (.ok ⟨.logs, some (pre ++ l :: post)⟩)
      = ⟨.next, (handleLogs (pre ++ l :: post)).2, (handleLogs (pre ++ l :: post)).1⟩ := rfl
  have hsplit := handleLogs_append pre (l :: post)
  refine ⟨?_, ?_, ?_, rfl, rfl⟩
  · rw [hstep]
    simp [hsplit, handleLogs, handleLogs_length]
    omega
  · rw [hstep]
    simp only [hsplit, handleLogs]
    rw [List.getElem?_append_right (by simp [handleLogs_length])]
    simp [handleLogs_length, renderLog, h]
  · rw [hstep]
    simp [hsplit, handleLogs, renderLog, h]

/-- C9 witness: a single non-marshalling record still produces its line with
the placeholder in the fields position. -/
theorem marshal_failure_recovered_witness :
    (readerStep false (.ok ⟨.logs, some [⟨"t", "lv", "ev", "msg", none⟩]⟩)).stdout[0]? =
      some ("t" ++ " " ++ "lv" ++ " " ++ "ev" ++ " " ++ "msg" ++ " "
        ++ "unable to parse fields") :=
  (marshal_failure_recovered [] [] ⟨"t", "lv", "ev", "msg", none⟩ rfl).2.1

end Tail
